import Mathlib

/-!
Verification of the PixooRadar frame-animation compositor
(`display_flight_data_pizoo.py`) against its specification.

The Python source is shallowly embedded: Python `int` becomes `Int`
(with Python floor division embedded as `Int.fdiv`), Python `None`
becomes `Option.none`, a Python dict field that may be missing or null
becomes `Option (Option _)` (outer `none` = key absent, inner `none` =
key present with value `None`), drawing calls are embedded as the list
of pixels they paint, and exceptions are embedded with `Except`.
-/

namespace PixooRadar

/-- Animation constant `PLANE_WIDTH = 5`. -/
def PLANE_WIDTH : Nat := 5

/-- Animation constant `ROUTE_START = 21`. -/
def ROUTE_START : Nat := 21

/-- Animation constant `ROUTE_END = 43`. -/
def ROUTE_END : Nat := 43

/-- `ROUTE_WIDTH = ROUTE_END - ROUTE_START`. -/
def ROUTE_WIDTH : Nat := ROUTE_END - ROUTE_START

/-- `AIRPLANE_CYCLE = ROUTE_WIDTH + PLANE_WIDTH` (27 frames per airplane loop). -/
def AIRPLANE_CYCLE : Nat := ROUTE_WIDTH + PLANE_WIDTH

/-- `TOTAL_FRAMES = AIRPLANE_CYCLE` (27). -/
def TOTAL_FRAMES : Nat := AIRPLANE_CYCLE

/-- Embeds `_measure_text_width`: `max(1, len(str(text)) * 6 - 1)` over Python ints. -/
def _measure_text_width (text : String) : Int :=
  max 1 ((text.length : Int) * 6 - 1)

/-- Embeds `_center_x`: `max(0, (rect_width - text_width) // 2)`; Python `//` is
floor division, embedded as `Int.fdiv`. -/
def _center_x (rect_width : Int) (text : String) : Int :=
  max 0 (Int.fdiv (rect_width - _measure_text_width text) 2)

/-- Left-pads a decimal string with zeros up to width `w`
(helper for the embedding of Python's `f"{n:03d}"`). -/
def pad_zeros (s : String) (w : Nat) : String :=
  String.mk (List.replicate (w - s.length) '0') ++ s

/-- Embeds Python's `f"{n:03d}"`: zero-pad the decimal form of `n` to a minimum
width of 3 characters, the sign counting toward the width. -/
def format03d (n : Int) : String :=
  if n < 0 then "-" ++ pad_zeros (toString (-n)) 2 else pad_zeros (toString n) 3

/-- Embeds `_format_flight_level`: `None` or below 1000 ft gives `"GND"`,
otherwise `"FL"` followed by `altitude_ft // 100` rendered with `%03d`. -/
def _format_flight_level (altitude_ft : Option Int) : String :=
  match altitude_ft with
  | none => "GND"
  | some a => if a < 1000 then "GND" else "FL" ++ format03d (Int.fdiv a 100)

/-- Embeds `_format_speed`: `None` gives `"---KT"`, otherwise the value followed
by `"KT"`. -/
def _format_speed (speed_kts : Option Int) : String :=
  match speed_kts with
  | none => "---KT"
  | some n => toString n ++ "KT"

/-- Embeds `_format_heading`: `None` gives `"---"`, otherwise `%03d` degrees. -/
def _format_heading (heading : Option Int) : String :=
  match heading with
  | none => "---"
  | some n => format03d n

/-- Embeds `_draw_airplane_icon` as the list of pixels it paints, following the
source's three drawing groups: the fuselage loop clips each pixel `(px, y+2)`
for `px` in `[x, x+5)` individually, the wing rectangle (column `x+2`, rows
`y..y+4`) is guarded by the clip test on `x+2`, and the tail rectangle
(column `x`, rows `y+1..y+3`) by the clip test on `x`. The fuselage loop
`for px in range(x, x + 5)` is unrolled into its five iterations, each
emitting its pixel under its own clip test. -/
def _draw_airplane_icon (x y clip_left clip_right : Int) : List (Int × Int) :=
  ((if clip_left ≤ x ∧ x < clip_right then [(x, y + 2)] else [])
    ++ (if clip_left ≤ x + 1 ∧ x + 1 < clip_right then [(x + 1, y + 2)] else [])
    ++ (if clip_left ≤ x + 2 ∧ x + 2 < clip_right then [(x + 2, y + 2)] else [])
    ++ (if clip_left ≤ x + 3 ∧ x + 3 < clip_right then [(x + 3, y + 2)] else [])
    ++ (if clip_left ≤ x + 4 ∧ x + 4 < clip_right then [(x + 4, y + 2)] else []))
  ++ (if clip_left ≤ x + 2 ∧ x + 2 < clip_right then
        [(x + 2, y), (x + 2, y + 1), (x + 2, y + 2), (x + 2, y + 3), (x + 2, y + 4)]
      else [])
  ++ (if clip_left ≤ x ∧ x < clip_right then
        [(x, y + 1), (x, y + 2), (x, y + 3)]
      else [])

/-- The unclipped pixel set of the 5×5 airplane sprite anchored at `(x, y)`:
5-pixel fuselage row, 5-pixel wing column, 3-pixel tail stub. -/
def airplane_icon_pixels (x y : Int) : List (Int × Int) :=
  [(x, y + 2), (x + 1, y + 2), (x + 2, y + 2), (x + 3, y + 2), (x + 4, y + 2),
   (x + 2, y), (x + 2, y + 1), (x + 2, y + 2), (x + 2, y + 3), (x + 2, y + 4),
   (x, y + 1), (x, y + 2), (x, y + 3)]

/-- Embeds the airplane position formula of the build loop:
`plane_x = ROUTE_START - PLANE_WIDTH + (frame_idx % AIRPLANE_CYCLE)`. -/
def plane_x (frame_idx : Nat) : Int :=
  (ROUTE_START : Int) - (PLANE_WIDTH : Int) + ((frame_idx % AIRPLANE_CYCLE : Nat) : Int)

/-- The `y_route` constant of the build loop. -/
def y_route : Int := 20

/-- The airplane pixels painted in frame `frame_idx`: the icon is drawn at
`(plane_x, y_route + 4)` with clip window `[ROUTE_START, ROUTE_END)`. -/
def frame_plane_pixels (frame_idx : Nat) : List (Int × Int) :=
  _draw_airplane_icon (plane_x frame_idx) (y_route + 4) (ROUTE_START : Int) (ROUTE_END : Int)

/-- A Python flight-record dict as produced by `flight_data.py` or handed to
`_build_and_send_animation`. Outer `none` means the key is absent from the
dict; inner `none` means the key is present with value `None`. -/
structure FlightRecord where
  origin : Option (Option String)
  destination : Option (Option String)
  flight_number : Option (Option String)
  aircraft_type_icao : Option (Option String)
  registration : Option (Option String)
  airline : Option (Option String)
  altitude : Option (Option Int)
  ground_speed : Option (Option Int)
  heading : Option (Option Int)
  deriving DecidableEq

/-- Embeds Python `d.get(key, default)`: the default is used only when the key
is absent; a key present with value `None` yields `None`. -/
def dict_get {α : Type} (field : Option (Option α)) (default : α) : Option α :=
  match field with
  | none => some default
  | some v => v

/-- Embeds Python `str(v)` on a value that is a string or `None`. -/
def py_str (v : Option String) : String :=
  match v with
  | none => "None"
  | some s => s

/-- Embeds Python `v or d` on a value that is an int or `None`
(`None` and `0` are falsy). -/
def py_or_int (v : Option Int) (d : Int) : Int :=
  match v with
  | none => d
  | some n => if n = 0 then d else n

/-- Embeds Python `v or d` on a value that is a string or `None`
(`None` and `""` are falsy). -/
def py_or_str (v : Option String) (d : String) : String :=
  match v with
  | none => d
  | some s => if s = "" then d else s

/-- The field values computed at the top of `_build_and_send_animation`. -/
structure NormalizedFields where
  airline_name : String
  origin : String
  destination : String
  flight_num : String
  aircraft : String
  registration : String
  altitude : Int
  speed : Int
  heading : Option Int
  deriving DecidableEq

/-- Embeds lines 198–206 of `_build_and_send_animation`: the `.get` defaults,
`str(...)` coercions, `[:n]` truncations, and the `or 0` coercions of
altitude and ground speed. -/
def normalize_record (data : FlightRecord) : NormalizedFields :=
  { airline_name := py_or_str (dict_get data.airline "") ""
    origin := (py_str (dict_get data.origin "---")).take 3
    destination := (py_str (dict_get data.destination "---")).take 3
    flight_num := (py_str (dict_get data.flight_number "----")).take 7
    aircraft := (py_str (dict_get data.aircraft_type_icao "----")).take 4
    registration := (py_str (dict_get data.registration "------")).take 7
    altitude := py_or_int (dict_get data.altitude 0) 0
    speed := py_or_int (dict_get data.ground_speed 0) 0
    heading := Option.join data.heading }

/-- Embeds the truncation of the airline-name fallback in `_draw_top_section`
(`name = airline_name[:10]`). -/
def airline_name_drawn (airline_name : String) : String :=
  airline_name.take 10

/-- Embeds the `info_pages` list of `_build_and_send_animation`:
three pages of `((upper_label, upper_value), (lower_label, lower_value))`. -/
def info_pages (n : NormalizedFields) : List ((String × String) × (String × String)) :=
  [ (("FLT", n.flight_num), ("ALT", _format_flight_level (some n.altitude)))
  , (("TYPE", n.aircraft), ("REG", n.registration))
  , (("SPD", _format_speed (some n.speed)), ("HDG", _format_heading n.heading)) ]

/-- Embeds the page selection of the build loop:
`page_idx = min(frame_idx // frames_per_page, len(info_pages) - 1)` with
`frames_per_page = TOTAL_FRAMES // len(info_pages)`. -/
def page_idx (pages_len frame_idx : Nat) : Nat :=
  min (frame_idx / (TOTAL_FRAMES / pages_len)) (pages_len - 1)

/-- The per-frame visual state produced by one pass of the build loop:
the record-dependent texts, the clipped airplane pixels of the frame, and
the two label/value rows of the departure-board page shown in the bottom
zone. Parts that are constant across frames and records (backgrounds,
separators, the dashed route line) are omitted. -/
structure Frame where
  origin : String
  destination : String
  airline_name : String
  plane_pixels : List (Int × Int)
  upper_pair : String × String
  lower_pair : String × String
  deriving DecidableEq

/-- One iteration of the build loop of `_build_and_send_animation`:
normalize the record, draw the airplane at its frame position, and pick
the departure-board page `min(frame_idx // frames_per_page, len(pages) - 1)`. -/
def build_frame (data : FlightRecord) (frame_idx : Nat) : Frame :=
  let n := normalize_record data
  let pages := info_pages n
  let page := pages.getD (page_idx pages.length frame_idx) (("", ""), ("", ""))
  { origin := n.origin
    destination := n.destination
    airline_name := airline_name_drawn n.airline_name
    plane_pixels := frame_plane_pixels frame_idx
    upper_pair := page.1
    lower_pair := page.2 }

/-- The full animation: one frame per index in `[0, TOTAL_FRAMES)`. -/
def build_animation (data : FlightRecord) : List Frame :=
  (List.range TOTAL_FRAMES).map (build_frame data)

/-- Runs the build loop with a fallible draw step, embedding Python exception
propagation: the first failing iteration aborts the loop and no further
frame is produced. -/
def run_build_loop (draw : Nat → Except String Frame) : List Nat → Except String (List Frame)
  | [] => Except.ok []
  | i :: rest =>
    match draw i with
    | Except.error e => Except.error e
    | Except.ok f =>
      match run_build_loop draw rest with
      | Except.error e => Except.error e
      | Except.ok fs => Except.ok (f :: fs)

/-- Outcome of one build attempt: the frame sets handed to the device
(`pizzoo.render` calls) and the overall result. -/
structure BuildAttempt where
  sent : List (List Frame)
  result : Except String Unit

/-- Embeds the control flow of `_build_and_send_animation` with a fallible
draw step: the loop over `range(TOTAL_FRAMES)` runs first, and only when
every iteration succeeds is `pizzoo.render` reached, submitting the complete
frame list; an exception anywhere in the loop propagates, so nothing is
submitted. -/
def build_and_send_attempt (draw : Nat → Except String Frame) : BuildAttempt :=
  match run_build_loop draw (List.range TOTAL_FRAMES) with
  | Except.error e => { sent := [], result := Except.error e }
  | Except.ok frames => { sent := [frames], result := Except.ok () }

/-- A record in which every optional field's key is present with value `None`,
exactly the shape `flight_data.get_closest_flight_data` returns when the API
has no data for the optional fields (the dict literal always includes every
key). -/
def all_null_record : FlightRecord :=
  { origin := some none
    destination := some none
    flight_number := some none
    aircraft_type_icao := some none
    registration := some none
    airline := some none
    altitude := some none
    ground_speed := some none
    heading := some none }

/-- A record in which every optional field's key is absent from the dict. -/
def absent_fields_record : FlightRecord :=
  { origin := none
    destination := none
    flight_number := none
    aircraft_type_icao := none
    registration := none
    airline := none
    altitude := none
    ground_speed := none
    heading := none }

/-- The end-to-end example record: flight number "FR2263", altitude 3400,
aircraft "A320", registration "D-ABCD", speed 450, heading 90. -/
def c3_record : FlightRecord :=
  { origin := none
    destination := none
    flight_number := some (some "FR2263")
    aircraft_type_icao := some (some "A320")
    registration := some (some "D-ABCD")
    airline := none
    altitude := some (some 3400)
    ground_speed := some (some 450)
    heading := some (some 90) }

/-- A draw step that fails at frame 13 and succeeds elsewhere, used to
exercise the build's failure path on a concrete input. -/
def fail_draw (j : Nat) : Except String Frame :=
  if j = 13 then Except.error "draw failed" else Except.ok (build_frame c3_record j)

/-! ## Helper lemmas -/

/-- Membership in the clipped icon drawing: a pixel is painted exactly when it
is a sprite pixel and its column lies in the clip window. -/
theorem mem_draw_airplane_icon (x y cl cr : Int) (p : Int × Int) :
    p ∈ _draw_airplane_icon x y cl cr ↔
      p ∈ airplane_icon_pixels x y ∧ cl ≤ p.1 ∧ p.1 < cr := by
  obtain ⟨a, b⟩ := p
  simp only [_draw_airplane_icon, airplane_icon_pixels, List.mem_append,
    List.mem_ite_nil_right, List.mem_cons, List.mem_singleton,
    List.not_mem_nil, or_false, Prod.mk.injEq]
  constructor
  · rintro ((((((⟨⟨hc1, hc2⟩, ha, hb⟩ | ⟨⟨hc1, hc2⟩, ha, hb⟩) | ⟨⟨hc1, hc2⟩, ha, hb⟩) | ⟨⟨hc1, hc2⟩, ha, hb⟩) | ⟨⟨hc1, hc2⟩, ha, hb⟩) | ⟨⟨hc1, hc2⟩, (⟨ha, hb⟩ | ⟨ha, hb⟩ | ⟨ha, hb⟩ | ⟨ha, hb⟩ | ⟨ha, hb⟩)⟩) | ⟨⟨hc1, hc2⟩, (⟨ha, hb⟩ | ⟨ha, hb⟩ | ⟨ha, hb⟩)⟩) <;>
      subst ha <;> subst hb <;>
      exact ⟨by simp, by omega, by omega⟩
  · rintro ⟨(⟨ha, hb⟩ | ⟨ha, hb⟩ | ⟨ha, hb⟩ | ⟨ha, hb⟩ | ⟨ha, hb⟩ | ⟨ha, hb⟩ | ⟨ha, hb⟩ | ⟨ha, hb⟩ | ⟨ha, hb⟩ | ⟨ha, hb⟩ | ⟨ha, hb⟩ | ⟨ha, hb⟩ | ⟨ha, hb⟩), hcl, hcr⟩ <;>
      subst ha <;> subst hb <;>
      simp [hcl, hcr]

/-- Every sprite pixel's row lies within 4 rows below the anchor row. -/
theorem airplane_icon_pixels_row_bound (x y : Int) (p : Int × Int)
    (hp : p ∈ airplane_icon_pixels x y) : y ≤ p.2 ∧ p.2 ≤ y + 4 := by
  obtain ⟨a, b⟩ := p
  simp only [airplane_icon_pixels, List.mem_cons, List.not_mem_nil, or_false,
    Prod.mk.injEq] at hp
  omega

/-- The airplane position sequence is periodic with period `AIRPLANE_CYCLE`. -/
theorem plane_x_add_cycle (i : Nat) : plane_x (i + 27) = plane_x i := by
  have h : (i + 27) % AIRPLANE_CYCLE = i % AIRPLANE_CYCLE := by
    have hc : AIRPLANE_CYCLE = 27 := rfl
    rw [hc, Nat.add_mod_right]
  unfold plane_x
  rw [h]

/-- The string prefix operation never yields more than `n` characters. -/
theorem string_take_length_le (s : String) (n : Nat) : (s.take n).length ≤ n := by
  rw [String.take_eq]
  calc (String.mk (List.take n s.data)).length
      = (List.take n s.data).length := rfl
    _ = min n s.data.length := List.length_take n s.data
    _ ≤ n := Nat.min_le_left _ _

/-- The string prefix operation is the identity on strings within the cap. -/
theorem string_take_of_length_le (s : String) (n : Nat) (h : s.length ≤ n) :
    s.take n = s := by
  obtain ⟨d⟩ := s
  rw [String.take_eq]
  exact congrArg String.mk (List.take_of_length_le h)

/-- If any iteration of the build loop fails, the whole loop fails. -/
theorem run_build_loop_error_of_mem (draw : Nat → Except String Frame)
    (l : List Nat) (i : Nat) (e : String) (hl : i ∈ l)
    (hd : draw i = Except.error e) :
    ∃ e', run_build_loop draw l = Except.error e' := by
  induction l with
  | nil => cases hl
  | cons a rest ih =>
    rcases List.mem_cons.mp hl with rfl | hmem
    · exact ⟨e, by simp [run_build_loop, hd]⟩
    · obtain ⟨e', he'⟩ := ih hmem
      cases hda : draw a with
      | error e2 => exact ⟨e2, by simp [run_build_loop, hda]⟩
      | ok f => exact ⟨e', by simp [run_build_loop, hda, he']⟩

/-! ## Claim theorems -/

/-- C1: the claim requires unknown speed to render as `"---KT"` and values
never to render as zero or as stray text, but the build coerces a null
ground speed to `0` (`data.get("ground_speed", 0) or 0`), so the SPD page of
every build over a record with null (or absent) optional fields shows
`"0KT"`; likewise `str(None)` turns a null origin into `"Non"` and a null
flight number into `"None"` instead of the placeholder codes, while the
formatter `_format_speed` itself maps `None` to `"---KT"` — a branch the
build path can never reach. -/
theorem C1_null_fields_render_zero_speed :
    (normalize_record all_null_record).speed = 0 ∧
    (build_frame all_null_record 18).upper_pair = ("SPD", "0KT") ∧
    (build_frame absent_fields_record 18).upper_pair = ("SPD", "0KT") ∧
    (build_frame all_null_record 0).upper_pair = ("FLT", "None") ∧
    (build_frame all_null_record 0).origin = "Non" ∧
    (build_frame all_null_record 0).destination = "Non" ∧
    _format_speed none = "---KT" := by
  refine ⟨rfl, by decide, by decide, by decide, by decide, by decide, rfl⟩

/-- C2 counterexample: the claim asserts that for some frame of the 27-frame
cycle every icon pixel has `x ≥ clipRight = ROUTE_END`; in fact no frame of
the cycle satisfies this (the rightmost anchor reached is 42 = ROUTE_END - 1). -/
theorem C2_counterexample :
    ¬ ∃ i ∈ List.range 27, ∀ p ∈ airplane_icon_pixels (plane_x i) (y_route + 4),
      (ROUTE_END : Int) ≤ p.1 := by decide

/-- C2 (amended): over one 27-frame cycle the icon starts fully left of the
clip window (frame 0, where nothing is drawn), is entirely inside the window
for some frame, but never lies fully at or beyond `clipRight`; at the final
frame its anchor is `ROUTE_END - 1` and only pixels in the window's last
column are drawn, and the position sequence wraps with period 27 so the
following frame shows the icon fully left of the window again. -/
theorem C2_airplane_traversal :
    (∃ i ∈ List.range 27, ∀ p ∈ airplane_icon_pixels (plane_x i) (y_route + 4),
        p.1 < (ROUTE_START : Int)) ∧
    (∃ i ∈ List.range 27, ∀ p ∈ airplane_icon_pixels (plane_x i) (y_route + 4),
        (ROUTE_START : Int) ≤ p.1 ∧ p.1 < (ROUTE_END : Int)) ∧
    (∀ i ∈ List.range 27, ¬ ∀ p ∈ airplane_icon_pixels (plane_x i) (y_route + 4),
        (ROUTE_END : Int) ≤ p.1) ∧
    frame_plane_pixels 0 = [] ∧
    plane_x 26 = (ROUTE_END : Int) - 1 ∧
    (∀ p ∈ frame_plane_pixels 26, p.1 = (ROUTE_END : Int) - 1) ∧
    frame_plane_pixels 26 ≠ [] ∧
    (∀ i : Nat, plane_x (i + 27) = plane_x i) := by
  refine ⟨by decide, by decide, by decide, by decide, by decide, by decide,
    by decide, plane_x_add_cycle⟩

/-- C4: the icon's horizontal anchor for frame `i` is
`ROUTE_START - PLANE_WIDTH + (i % AIRPLANE_CYCLE)` with
`AIRPLANE_CYCLE = (ROUTE_END - ROUTE_START) + PLANE_WIDTH = 27`; it is 16
at frame 0, 42 at frame 26, and periodic with period 27. -/
theorem C4_plane_position :
    AIRPLANE_CYCLE = (ROUTE_END - ROUTE_START) + PLANE_WIDTH ∧
    (∀ i : Nat, plane_x i =
      (ROUTE_START : Int) - (PLANE_WIDTH : Int) + ((i % AIRPLANE_CYCLE : Nat) : Int)) ∧
    AIRPLANE_CYCLE = 27 ∧ plane_x 0 = 16 ∧ plane_x 26 = 42 ∧
    (∀ i : Nat, plane_x (i + 27) = plane_x i) :=
  ⟨rfl, fun _ => rfl, rfl, by decide, by decide, plane_x_add_cycle⟩

/-- C5: `_format_flight_level` returns `"GND"` for a null altitude and for
every altitude below 1000 ft, and `"FL"` followed by the zero-padded
three-digit rendering of `altitude // 100` for every altitude of at least
1000 ft; in particular 3500 gives `"FL035"` and 10000 gives `"FL100"`. -/
theorem C5_format_flight_level :
    (∀ a : Option Int, (a = none ∨ ∃ v, a = some v ∧ v < 1000) →
      _format_flight_level a = "GND") ∧
    (∀ v : Int, 1000 ≤ v →
      _format_flight_level (some v) = "FL" ++ format03d (Int.fdiv v 100)) ∧
    _format_flight_level (some 3500) = "FL035" ∧
    _format_flight_level (some 10000) = "FL100" := by
  refine ⟨?_, ?_, by decide, by decide⟩
  · rintro a (rfl | ⟨v, rfl, hv⟩)
    · rfl
    · simp [_format_flight_level, hv]
  · intro v hv
    simp only [_format_flight_level, if_neg (by omega : ¬ v < 1000)]

/-- C5 witness: the theorem applied at altitude 500 (below 1000 ft) and at
the threshold altitude 1000 ft. -/
theorem C5_format_flight_level_witness :
    _format_flight_level (some 500) = "GND" ∧
    _format_flight_level (some 1000) = "FL" ++ format03d (Int.fdiv 1000 100) :=
  ⟨C5_format_flight_level.1 (some 500) (Or.inr ⟨500, rfl, by norm_num⟩),
   C5_format_flight_level.2.1 1000 (by norm_num)⟩

/-- C3: the build over the example record produces exactly 27 pairwise
distinct frames; the pages are, in order, (FLT, ALT), (TYPE, REG),
(SPD, HDG) with the example's formatted values; the frame-to-page map is
`min(i // 9, 2)` with `framesPerPage = 27 // 3 = 9`; frames 0, 9, 18 show
the three pages and frames 8 and 26 map to pages 0 and 2. -/
theorem C3_pages_and_frames :
    (build_animation c3_record).length = 27 ∧
    (build_animation c3_record).Nodup ∧
    info_pages (normalize_record c3_record) =
      [ (("FLT", "FR2263"), ("ALT", "FL034")),
        (("TYPE", "A320"), ("REG", "D-ABCD")),
        (("SPD", "450KT"), ("HDG", "090")) ] ∧
    TOTAL_FRAMES / (info_pages (normalize_record c3_record)).length = 9 ∧
    (∀ i : Nat, page_idx 3 i = min (i / 9) 2) ∧
    (build_frame c3_record 0).upper_pair = ("FLT", "FR2263") ∧
    (build_frame c3_record 0).lower_pair = ("ALT", "FL034") ∧
    (build_frame c3_record 9).upper_pair = ("TYPE", "A320") ∧
    (build_frame c3_record 9).lower_pair = ("REG", "D-ABCD") ∧
    (build_frame c3_record 18).upper_pair = ("SPD", "450KT") ∧
    (build_frame c3_record 18).lower_pair = ("HDG", "090") ∧
    page_idx 3 8 = 0 ∧ page_idx 3 26 = 2 := by
  refine ⟨by decide, by decide, by decide, by decide, fun i => rfl, by decide,
    by decide, by decide, by decide, by decide, by decide, by decide, by decide⟩

/-- C6: if any single frame's draw step fails, the build fails as a whole:
the device-submit call is never reached (no frame set, complete or partial,
is handed to the device) and the attempt surfaces a single error. -/
theorem C6_atomic_build (draw : Nat → Except String Frame) (i : Nat) (e : String)
    (hi : i < TOTAL_FRAMES) (hd : draw i = Except.error e) :
    (build_and_send_attempt draw).sent = [] ∧
    ∃ e', (build_and_send_attempt draw).result = Except.error e' := by
  obtain ⟨e', he'⟩ := run_build_loop_error_of_mem draw (List.range TOTAL_FRAMES) i e
    (List.mem_range.mpr hi) hd
  refine ⟨?_, e', ?_⟩ <;> simp [build_and_send_attempt, he']

/-- C6 witness: the theorem applied to a draw step failing at frame 13. -/
theorem C6_atomic_build_witness :
    (build_and_send_attempt fail_draw).sent = [] ∧
    ∃ e', (build_and_send_attempt fail_draw).result = Except.error e' :=
  C6_atomic_build fail_draw 13 "draw failed" (by decide) rfl

/-- C7: a pixel of the airplane icon is drawn exactly when its own
x-coordinate lies in `[clip_left, clip_right)`: the drawn pixel set is the
sprite's pixel set intersected with the clip window, for every anchor and
every clip window. -/
theorem C7_per_pixel_clipping (x y clip_left clip_right : Int) (p : Int × Int) :
    p ∈ _draw_airplane_icon x y clip_left clip_right ↔
      p ∈ airplane_icon_pixels x y ∧ clip_left ≤ p.1 ∧ p.1 < clip_right :=
  mem_draw_airplane_icon x y clip_left clip_right p

/-- C8: `_measure_text_width` returns `max(1, 6·len - 1)` — six pixels per
character minus one pixel of spacing, with a floor of 1 for the empty
string — and `_center_x` returns `max(0, (width - textWidth) // 2)` with
floor division; in particular `"AB"` measures 11 and centers at 26 in a
64-pixel row. -/
theorem C8_text_metrics :
    (∀ s : String, _measure_text_width s = max 1 (6 * (s.length : Int) - 1)) ∧
    (∀ s : String, 1 ≤ s.length → _measure_text_width s = 6 * (s.length : Int) - 1) ∧
    _measure_text_width "" = 1 ∧
    (∀ (w : Int) (s : String),
      _center_x w s = max 0 (Int.fdiv (w - _measure_text_width s) 2)) ∧
    _measure_text_width "AB" = 11 ∧ _center_x 64 "AB" = 26 := by
  refine ⟨fun s => by simp [_measure_text_width, mul_comm], ?_, by decide,
    fun w s => rfl, by decide, by decide⟩
  intro s hs
  have h1 : (1 : Int) ≤ (s.length : Int) := by exact_mod_cast hs
  simp only [_measure_text_width]
  rw [max_eq_right (by omega)]
  ring

/-- C8 witness: the theorem's nonempty-string case applied at `"A"`. -/
theorem C8_text_metrics_witness :
    _measure_text_width "A" = 6 * (("A" : String).length : Int) - 1 :=
  C8_text_metrics.2.1 "A" (by decide)

/-- C9: every text field of the record is truncated to its fixed maximum
character count — origin and destination to 3, flight number to 7, aircraft
type code to 4, registration to 7, airline name to 10 — by a prefix cut
(never wrapped), and strings at or under the cap pass through unchanged. -/
theorem C9_field_truncation (data : FlightRecord) :
    (normalize_record data).origin.length ≤ 3 ∧
    (normalize_record data).destination.length ≤ 3 ∧
    (normalize_record data).flight_num.length ≤ 7 ∧
    (normalize_record data).aircraft.length ≤ 4 ∧
    (normalize_record data).registration.length ≤ 7 ∧
    (airline_name_drawn (normalize_record data).airline_name).length ≤ 10 ∧
    (∀ s : String, data.flight_number = some (some s) → s.length ≤ 7 →
      (normalize_record data).flight_num = s) ∧
    (∀ s : String, data.origin = some (some s) → s.length ≤ 3 →
      (normalize_record data).origin = s) ∧
    (∀ s : String, ∀ n : Nat, s.length ≤ n → s.take n = s) := by
  simp only [normalize_record, airline_name_drawn]
  refine ⟨string_take_length_le _ 3, string_take_length_le _ 3,
    string_take_length_le _ 7, string_take_length_le _ 4,
    string_take_length_le _ 7, string_take_length_le _ 10, ?_, ?_,
    fun s n h => string_take_of_length_le s n h⟩
  · intro s hf hlen
    simp only [dict_get, hf, py_str]
    exact string_take_of_length_le s 7 hlen
  · intro s hf hlen
    simp only [dict_get, hf, py_str]
    exact string_take_of_length_le s 3 hlen

/-- C9 witness: the theorem applied at the example record, whose 6-character
flight number passes through the 7-character cap unchanged, and the
pass-through conjunct applied to `"AB"` under cap 5. -/
theorem C9_field_truncation_witness :
    (normalize_record c3_record).flight_num = "FR2263" ∧
    ("AB" : String).take 5 = "AB" :=
  ⟨(C9_field_truncation c3_record).2.2.2.2.2.2.1 "FR2263" rfl (by decide),
   (C9_field_truncation c3_record).2.2.2.2.2.2.2.2 "AB" 5 (by decide)⟩

/-- C10: in every frame of the animation, every pixel drawn for the airplane
icon has its column in `[21, 43)` and its row in `[24, 28]`, so the icon
never overdraws the logo zone (rows 0–19), the separator rows (20 and 32),
or the departure-board zone (rows 33–63). -/
theorem C10_icon_stays_in_route_box (i : Nat) (p : Int × Int)
    (hp : p ∈ frame_plane_pixels i) :
    (21 ≤ p.1 ∧ p.1 < 43) ∧ (24 ≤ p.2 ∧ p.2 ≤ 28) := by
  simp only [frame_plane_pixels] at hp
  obtain ⟨hicon, hcl, hcr⟩ :=
    (mem_draw_airplane_icon (plane_x i) (y_route + 4) (ROUTE_START : Int)
      (ROUTE_END : Int) p).mp hp
  have hrow := airplane_icon_pixels_row_bound (plane_x i) (y_route + 4) p hicon
  simp only [ROUTE_START, ROUTE_END] at hcl hcr
  simp only [y_route] at hrow
  refine ⟨⟨by omega, by omega⟩, by omega, by omega⟩

/-- C10 witness: the theorem applied at frame 5 to the wing-tip pixel
`(23, 24)`, which that frame draws. -/
theorem C10_icon_stays_in_route_box_witness :
    (21 ≤ (23 : Int) ∧ (23 : Int) < 43) ∧ (24 ≤ (24 : Int) ∧ (24 : Int) ≤ 28) :=
  C10_icon_stays_in_route_box 5 (23, 24) (by decide)

end PixooRadar
